import Mathlib

/-!
Shallow embedding of `src/lib/gamejs/display.js` (the gamejs display module).

The module is a stateful facade over the browser DOM: a lazily created
singleton `Surface` bound to a canvas element, a module-level smoothing
flag, and a fullscreen state machine driven by platform change events.
We model the reachable state (the three DOM elements the module creates
and looks up by fixed id, the module globals, the platform fullscreen
flags and capabilities, the document title and focus) as one record,
and each function of the module as an explicit state transformer.
DOM elements are never removed by this module, so existence of an element
with a given fixed id is an `Option` field, and `...Created` counters
count how many elements of that kind were ever created and appended
(used to state the no-duplication claims).
-/

set_option autoImplicit false

namespace GamejsDisplay

/-- Reference to a focusable document element; `canvasEl` is the canvas the
module creates under its fixed id (at most one ever exists), `otherEl n`
is any other element of the page. Used for `document.activeElement`. -/
inductive ElemRef where
  | canvasEl
  | bodyEl
  | otherEl (n : Nat)
deriving Repr, DecidableEq

/-- The canvas DOM element (the rendering target). `width`/`height` are the
canvas attributes set by `setMode`; `clientWidth`/`clientHeight` are the
layout-determined client sizes read by `getSurface`; `tabindex` is the
attribute `getCanvas` sets; `boundLeft`/`boundTop` model the
`getBoundingClientRect()` offsets read by `_getCanvasOffset`. -/
structure Canvas where
  width : Nat
  height : Nat
  clientWidth : Nat
  clientHeight : Nat
  tabindex : Option Nat
  boundLeft : Int
  boundTop : Int
deriving Repr, DecidableEq

/-- A fresh canvas element as created by `document.createElement("canvas")`:
default 300 x 150 size, no tabindex. Client sizes and bounding offsets are
layout-determined; we fix the defaults the platform would report for an
unstyled element. -/
def newCanvas : Canvas :=
  { width := 300, height := 150, clientWidth := 300, clientHeight := 150,
    tabindex := none, boundLeft := 0, boundTop := 0 }

/-- The fullscreen wrapper div. `textAlign` is the inline style
`style.textAlign` (`none` models the null/unset value). The six `Bool`
fields record whether the corresponding (possibly vendor specific)
platform method is visible on the element; `enableFullScreen` and
`enablePointerLock` overwrite the unprefixed field with the resolved
disjunction, exactly as the source assigns
`wrapper.requestFullScreen = wrapper.requestFullScreen || ...`. -/
structure Wrapper where
  textAlign : Option String
  requestFullScreen : Bool
  mozRequestFullScreen : Bool
  webkitRequestFullScreen : Bool
  requestPointerLock : Bool
  mozRequestPointerLock : Bool
  webkitRequestPointerLock : Bool
deriving Repr, DecidableEq

/-- Modelled from the spec: the external `Surface` collaborator (defined in
`gamejs.js`, not under `src/`). Per the collaborator contract it exposes a
constructor taking `[width, height]`, mutable bindings `_canvas` and
`_context` to a rendering target and its drawing context, and the two
capability toggles `_smooth` / `_noSmooth` for pixel smoothing. `sid` is
the allocation identity of the object (two Surfaces constructed by
separate `new` calls are distinct); `smooth` is the persistent smoothing
capability state the two toggles set. -/
structure Surface where
  sid : Nat
  width : Nat
  height : Nat
  smooth : Bool
  hasCanvas : Bool
  hasContext : Bool
deriving Repr, DecidableEq

/-- Modelled from the spec: `new Surface([w, h])` with allocation id `i`;
the smoothing capability starts in the enabled state and the canvas and
context bindings are not yet assigned. -/
def Surface.new (i w h : Nat) : Surface :=
  { sid := i, width := w, height := h, smooth := true,
    hasCanvas := false, hasContext := false }

/-- Modelled from the spec: the `_smooth` capability toggle enables pixel
smoothing on the surface. -/
def Surface.smoothOn (x : Surface) : Surface := { x with smooth := true }

/-- Modelled from the spec: the `_noSmooth` capability toggle disables pixel
smoothing on the surface. -/
def Surface.noSmooth (x : Surface) : Surface := { x with smooth := false }

/-- The whole observable state: the DOM elements the module manages (with
creation counters, since elements are never removed), listener
registrations, document focus and title, the platform fullscreen report
and capabilities, the fire-and-forget platform requests issued so far,
and the module-level globals `SURFACE`, `_SURFACE_SMOOTHING` and
`oldWrapperTextAlign` of `display.js`. `nextId` feeds `Surface`
allocation identities. -/
structure DState where
  canvas : Option Canvas
  canvasCreated : Nat
  wrapper : Option Wrapper
  wrapperCreated : Nat
  toggle : Bool
  toggleCreated : Nat
  brCreated : Nat
  toggleClickListeners : Nat
  fsChangeHooked : Bool
  loaderPresent : Bool
  loaderDisplayNone : Bool
  activeElement : ElemRef
  title : String
  fullScreenElement : Bool
  mozFullScreenElement : Bool
  webkitIsFullScreen : Bool
  webkitDisplayingFullscreen : Bool
  platRequestFullScreen : Bool
  platMozRequestFullScreen : Bool
  platWebkitRequestFullScreen : Bool
  platRequestPointerLock : Bool
  platMozRequestPointerLock : Bool
  platWebkitRequestPointerLock : Bool
  fsRequests : Nat
  plRequests : Nat
  SURFACE : Option Surface
  _SURFACE_SMOOTHING : Bool
  oldWrapperTextAlign : Option String
  nextId : Nat
deriving Repr, DecidableEq

/-- Process start: no element of the module exists yet, the module globals
have their initial values (`SURFACE = null`, `_SURFACE_SMOOTHING = true`,
`oldWrapperTextAlign = null`), the platform is not in fullscreen, and all
platform capabilities are available. -/
def initState : DState :=
  { canvas := none, canvasCreated := 0, wrapper := none, wrapperCreated := 0,
    toggle := false, toggleCreated := 0, brCreated := 0,
    toggleClickListeners := 0, fsChangeHooked := false,
    loaderPresent := false, loaderDisplayNone := false,
    activeElement := ElemRef.bodyEl, title := "",
    fullScreenElement := false, mozFullScreenElement := false,
    webkitIsFullScreen := false, webkitDisplayingFullscreen := false,
    platRequestFullScreen := true, platMozRequestFullScreen := true,
    platWebkitRequestFullScreen := true, platRequestPointerLock := true,
    platMozRequestPointerLock := true, platWebkitRequestPointerLock := true,
    fsRequests := 0, plRequests := 0,
    SURFACE := none, _SURFACE_SMOOTHING := true,
    oldWrapperTextAlign := none, nextId := 0 }

/-- `var DISABLE_SMOOTHING = exports.DISABLE_SMOOTHING = 2;` -/
def DISABLE_SMOOTHING : Nat := 2

/-- `getCanvas()`: look up the canvas by its fixed id, creating and
appending it to the body when absent; then on every call set its
`tabindex` attribute and call `focus()` on it, and return it. -/
def getCanvas (s : DState) : Canvas × DState :=
  let p : Canvas × DState :=
    match s.canvas with
    | some c => (c, s)
    | none =>
        (newCanvas,
         { s with canvas := some newCanvas, canvasCreated := s.canvasCreated + 1 })
  let c1 := { p.1 with tabindex := some 1 }
  (c1, { p.2 with canvas := some c1, activeElement := ElemRef.canvasEl })

/-- `getFullScreenToggle()`: look up the toggle button by its fixed id;
when absent, create it and insert it, together with a `br` element,
before the canvas (fetching the canvas via `getCanvas`). -/
def getFullScreenToggle (s : DState) : DState :=
  if s.toggle then s
  else
    let p := getCanvas s
    { p.2 with toggle := true, toggleCreated := p.2.toggleCreated + 1,
               brCreated := p.2.brCreated + 1 }

/-- `getFullScreenWrapper()`: look up the wrapper div by its fixed id; when
absent, create it (its fullscreen and pointer lock methods come from the
platform prototype), append it next to the canvas (fetching the canvas
via `getCanvas`) and move the canvas into it. -/
def getFullScreenWrapper (s : DState) : Wrapper × DState :=
  match s.wrapper with
  | some w => (w, s)
  | none =>
      let w : Wrapper :=
        { textAlign := none,
          requestFullScreen := s.platRequestFullScreen,
          mozRequestFullScreen := s.platMozRequestFullScreen,
          webkitRequestFullScreen := s.platWebkitRequestFullScreen,
          requestPointerLock := s.platRequestPointerLock,
          mozRequestPointerLock := s.platMozRequestPointerLock,
          webkitRequestPointerLock := s.platWebkitRequestPointerLock }
      let p := getCanvas s
      (w, { p.2 with wrapper := some w, wrapperCreated := p.2.wrapperCreated + 1 })

/-- `isFullScreen()`: the truthiness of the disjunction of the unprefixed
and vendor specific platform fullscreen indicators. -/
def isFullScreen (s : DState) : Bool :=
  s.fullScreenElement || s.mozFullScreenElement || s.webkitIsFullScreen
    || s.webkitDisplayingFullscreen

/-- `enablePointerLock()`: resolve the pointer lock method on the wrapper
(unprefixed, then vendor specific) and store the resolution back on the
wrapper; when some method exists, issue the platform request, otherwise
do nothing. -/
def enablePointerLock (s : DState) : DState :=
  let p := getFullScreenWrapper s
  let w := { p.1 with requestPointerLock :=
               p.1.requestPointerLock || p.1.mozRequestPointerLock
                 || p.1.webkitRequestPointerLock }
  let s1 := { p.2 with wrapper := some w }
  if w.requestPointerLock then { s1 with plRequests := s1.plRequests + 1 } else s1

/-- `fullScreenChange(event)`: the platform change handler. When the
platform reports fullscreen: request pointer lock, save the current
wrapper `style.textAlign` into the module global, and set it to
"center". Otherwise: write the saved value back into the wrapper
`style.textAlign`. -/
def fullScreenChange (s : DState) : DState :=
  if isFullScreen s then
    let s1 := enablePointerLock s
    let p := getFullScreenWrapper s1
    let s2 := { p.2 with oldWrapperTextAlign := p.1.textAlign }
    let q := getFullScreenWrapper s2
    { q.2 with wrapper := some { q.1 with textAlign := some "center" } }
  else
    let p := getFullScreenWrapper s
    { p.2 with wrapper := some { p.1 with textAlign := p.2.oldWrapperTextAlign } }

/-- `enableFullScreen()`: resolve the fullscreen request method on the
wrapper (unprefixed, then vendor specific) and store the resolution back
on the wrapper; when no method exists return `false`, otherwise issue the
platform request and return `true`. -/
def enableFullScreen (s : DState) : Bool × DState :=
  let p := getFullScreenWrapper s
  let w := { p.1 with requestFullScreen :=
               p.1.requestFullScreen || p.1.mozRequestFullScreen
                 || p.1.webkitRequestFullScreen }
  let s1 := { p.2 with wrapper := some w }
  if w.requestFullScreen then (true, { s1 with fsRequests := s1.fsRequests + 1 })
  else (false, s1)

/-- `exports.init()`: ensure the wrapper, the toggle and the canvas exist;
register a fresh click listener on the toggle; register the
`fullScreenChange` handler for the unprefixed and the two vendor specific
change events on the document (the same callback each time, so the DOM
keeps a single registration per event); hide the loader element when
present. -/
def init (s : DState) : DState :=
  let p := getFullScreenWrapper s
  let s1 := getFullScreenToggle p.2
  let s2 := { s1 with toggleClickListeners := s1.toggleClickListeners + 1 }
  let s3 := { s2 with fsChangeHooked := true }
  let q := getCanvas s3
  if q.2.loaderPresent then { q.2 with loaderDisplayNone := true } else q.2

/-- `exports._hasFocus()`: `document.activeElement == getCanvas()`;
`document.activeElement` is read before `getCanvas()` runs its side
effects. -/
def _hasFocus (s : DState) : Bool × DState :=
  let active := s.activeElement
  let p := getCanvas s
  (active == ElemRef.canvasEl, p.2)

/-- `exports._isSmoothingEnabled()`: `_SURFACE_SMOOTHING === true`. -/
def _isSmoothingEnabled (s : DState) : Bool :=
  s._SURFACE_SMOOTHING == true

/-- `exports._getCanvasOffset()`: the `[left, top]` of the bounding client
rect of the canvas fetched via `getCanvas`. -/
def _getCanvasOffset (s : DState) : (Int × Int) × DState :=
  let p := getCanvas s
  ((p.1.boundLeft, p.1.boundTop), p.2)

/-- `exports.getSurface()`: when the module global `SURFACE` is null,
construct `new Surface([canvas.clientWidth, canvas.clientHeight])` from
the canvas fetched via `getCanvas`, assign its `_canvas` and `_context`
bindings, apply `_smooth()` or `_noSmooth()` according to
`_SURFACE_SMOOTHING`, and cache it; always return the cached surface. -/
def getSurface (s : DState) : Surface × DState :=
  match s.SURFACE with
  | some surf => (surf, s)
  | none =>
      let p := getCanvas s
      let surf0 := Surface.new p.2.nextId p.1.clientWidth p.1.clientHeight
      let surf1 := { surf0 with hasCanvas := true, hasContext := true }
      let surf2 := if p.2._SURFACE_SMOOTHING then surf1.smoothOn else surf1.noSmooth
      (surf2, { p.2 with SURFACE := some surf2, nextId := p.2.nextId + 1 })

/-- `exports.setMode(dimensions, flags)`: set the canvas width and height
from `dimensions`, set `_SURFACE_SMOOTHING = (flags !== DISABLE_SMOOTHING)`
(`none` models an omitted / undefined `flags`), and return `getSurface()`. -/
def setMode (dimensions : Nat × Nat) (flags : Option Nat) (s : DState) :
    Surface × DState :=
  let p := getCanvas s
  let c := { p.1 with width := dimensions.1, height := dimensions.2 }
  let s1 := { p.2 with canvas := some c }
  let s2 := { s1 with _SURFACE_SMOOTHING := flags != some DISABLE_SMOOTHING }
  getSurface s2

/-- `exports.setCaption(title, icon)`: set `document.title`; the icon
argument (of arbitrary type) is accepted and ignored. -/
def setCaption {α : Type} (title : String) (_icon : α) (s : DState) : DState :=
  { s with title := title }

/-- One invocation of the module surface: an exported operation, the toggle
click action, or a delivery of the platform change event to the handler.
Used to quantify over arbitrary program runs. -/
inductive Op where
  | opInit
  | opSetMode (dims : Nat × Nat) (flags : Option Nat)
  | opSetCaption (t : String)
  | opGetSurface
  | opHasFocus
  | opIsSmoothingEnabled
  | opGetCanvasOffset
  | opEnableFullScreen
  | opFullScreenChange
deriving Repr, DecidableEq

/-- The state effect of one module operation. -/
def runOp : Op → DState → DState
  | Op.opInit, s => init s
  | Op.opSetMode d f, s => (setMode d f s).2
  | Op.opSetCaption t, s => setCaption t () s
  | Op.opGetSurface, s => (getSurface s).2
  | Op.opHasFocus, s => (_hasFocus s).2
  | Op.opIsSmoothingEnabled, s => s
  | Op.opGetCanvasOffset, s => (_getCanvasOffset s).2
  | Op.opEnableFullScreen, s => (enableFullScreen s).2
  | Op.opFullScreenChange, s => fullScreenChange s

/-- The state effect of a sequence of module operations. -/
def runOps : List Op → DState → DState
  | [], s => s
  | op :: ops, s => runOps ops (runOp op s)

/-! ### Basic lemmas about the element accessors -/

theorem getCanvas_of_some (s : DState) (c : Canvas) (h : s.canvas = some c) :
    getCanvas s =
      ({ c with tabindex := some 1 },
       { s with canvas := some { c with tabindex := some 1 },
                activeElement := ElemRef.canvasEl }) := by
  simp [getCanvas, h]

theorem getCanvas_SURFACE (s : DState) : ((getCanvas s).2).SURFACE = s.SURFACE := by
  rcases h : s.canvas with _ | c <;> simp [getCanvas, h]

theorem getCanvas_smoothing (s : DState) :
    ((getCanvas s).2)._SURFACE_SMOOTHING = s._SURFACE_SMOOTHING := by
  rcases h : s.canvas with _ | c <;> simp [getCanvas, h]

theorem getCanvas_active (s : DState) :
    ((getCanvas s).2).activeElement = ElemRef.canvasEl := by
  rcases h : s.canvas with _ | c <;> simp [getCanvas, h]

theorem getCanvas_tabindex (s : DState) :
    ((getCanvas s).2).canvas.map Canvas.tabindex = some (some 1) := by
  rcases h : s.canvas with _ | c <;> simp [getCanvas, h]

theorem getFullScreenWrapper_of_some (s : DState) (w : Wrapper)
    (h : s.wrapper = some w) : getFullScreenWrapper s = (w, s) := by
  simp [getFullScreenWrapper, h]

theorem getFullScreenWrapper_SURFACE (s : DState) :
    ((getFullScreenWrapper s).2).SURFACE = s.SURFACE := by
  rcases h : s.wrapper with _ | w <;>
    simp [getFullScreenWrapper, h, getCanvas_SURFACE]

theorem getFullScreenToggle_SURFACE (s : DState) :
    (getFullScreenToggle s).SURFACE = s.SURFACE := by
  by_cases h : s.toggle <;> simp [getFullScreenToggle, h, getCanvas_SURFACE]

theorem init_SURFACE (s : DState) : (init s).SURFACE = s.SURFACE := by
  simp only [init]
  split <;>
    simp [getCanvas_SURFACE, getFullScreenToggle_SURFACE, getFullScreenWrapper_SURFACE]

theorem enablePointerLock_SURFACE (s : DState) :
    (enablePointerLock s).SURFACE = s.SURFACE := by
  simp only [enablePointerLock]
  split <;> simp [getFullScreenWrapper_SURFACE]

theorem fullScreenChange_SURFACE (s : DState) :
    (fullScreenChange s).SURFACE = s.SURFACE := by
  simp only [fullScreenChange]
  split <;>
    simp [getFullScreenWrapper_SURFACE, enablePointerLock_SURFACE]

theorem enableFullScreen_SURFACE (s : DState) :
    ((enableFullScreen s).2).SURFACE = s.SURFACE := by
  simp only [enableFullScreen]
  split <;> simp [getFullScreenWrapper_SURFACE]

theorem getSurface_of_some (s : DState) (surf : Surface)
    (h : s.SURFACE = some surf) : getSurface s = (surf, s) := by
  simp [getSurface, h]

theorem getSurface_cached (s : DState) :
    ((getSurface s).2).SURFACE = some ((getSurface s).1) := by
  rcases h : s.SURFACE with _ | surf <;> simp [getSurface, h]

theorem setMode_of_some (d : Nat × Nat) (f : Option Nat) (s : DState)
    (surf : Surface) (h : s.SURFACE = some surf) :
    (setMode d f s).1 = surf ∧ ((setMode d f s).2).SURFACE = some surf := by
  simp only [setMode]
  rw [getSurface_of_some]
  · exact ⟨rfl, by simpa [getCanvas_SURFACE] using h⟩
  · simpa [getCanvas_SURFACE] using h

theorem setMode_cached (d : Nat × Nat) (f : Option Nat) (s : DState) :
    ((setMode d f s).2).SURFACE = some ((setMode d f s).1) := by
  simp only [setMode]
  exact getSurface_cached _

theorem runOp_SURFACE (op : Op) (s : DState) (surf : Surface)
    (h : s.SURFACE = some surf) : (runOp op s).SURFACE = some surf := by
  cases op with
  | opInit => rw [runOp, init_SURFACE]; exact h
  | opSetMode d f => exact (setMode_of_some d f s surf h).2
  | opSetCaption t => simpa [runOp, setCaption] using h
  | opGetSurface => rw [runOp, (getSurface_of_some s surf h)]; exact h
  | opHasFocus => simpa [runOp, _hasFocus, getCanvas_SURFACE] using h
  | opIsSmoothingEnabled => simpa [runOp] using h
  | opGetCanvasOffset => simpa [runOp, _getCanvasOffset, getCanvas_SURFACE] using h
  | opEnableFullScreen => rw [runOp, enableFullScreen_SURFACE]; exact h
  | opFullScreenChange => rw [runOp, fullScreenChange_SURFACE]; exact h

theorem runOps_SURFACE (ops : List Op) (s : DState) (surf : Surface)
    (h : s.SURFACE = some surf) : (runOps ops s).SURFACE = some surf := by
  induction ops generalizing s with
  | nil => exact h
  | cons op ops ih => exact ih (runOp op s) (runOp_SURFACE op s surf h)

/-- C1: once a Surface has been created, `getSurface()` returns the
identical cached instance on every subsequent call, whatever sequence of
module operations runs in between; this includes the `getSurface()`
performed inside `setMode`, whose result is again returned by any later
`getSurface()`. -/
theorem getSurface_singleton (s : DState) (ops : List Op) (d : Nat × Nat)
    (f : Option Nat) :
    (getSurface (runOps ops ((getSurface s).2))).1 = (getSurface s).1 ∧
    (getSurface (runOps ops ((setMode d f s).2))).1 = (setMode d f s).1 := by
  constructor
  · have h := runOps_SURFACE ops ((getSurface s).2) ((getSurface s).1)
      (getSurface_cached s)
    rw [getSurface_of_some _ _ h]
  · have h := runOps_SURFACE ops ((setMode d f s).2) ((setMode d f s).1)
      (setMode_cached d f s)
    rw [getSurface_of_some _ _ h]

theorem getSurface_canvas_dims (s : DState) (c : Canvas) (h : s.canvas = some c) :
    ((getSurface s).2).canvas.map Canvas.width = some c.width ∧
    ((getSurface s).2).canvas.map Canvas.height = some c.height := by
  rcases hS : s.SURFACE with _ | surf <;>
    simp [getSurface, hS, getCanvas_of_some s c h, h]

/-- C2: for every `[w, h]` and every flags value, `setMode` sets the canvas
width to `w` and height to `h`, sets `_SURFACE_SMOOTHING` to
`flags !== DISABLE_SMOOTHING`, and returns the singleton Surface: the
returned surface is the cached one afterwards, and when a surface already
existed that same instance is returned. -/
theorem setMode_spec (w h : Nat) (flags : Option Nat) (s : DState) :
    ((setMode (w, h) flags s).2).canvas.map Canvas.width = some w ∧
    ((setMode (w, h) flags s).2).canvas.map Canvas.height = some h ∧
    ((setMode (w, h) flags s).2)._SURFACE_SMOOTHING
      = (flags != some DISABLE_SMOOTHING) ∧
    ((setMode (w, h) flags s).2).SURFACE = some ((setMode (w, h) flags s).1) ∧
    (∀ surf, s.SURFACE = some surf → (setMode (w, h) flags s).1 = surf) := by
  refine ⟨?_, ?_, ?_, setMode_cached (w, h) flags s,
    fun surf hs => (setMode_of_some (w, h) flags s surf hs).1⟩ <;>
  · rcases hc : s.canvas with _ | c <;> rcases hS : s.SURFACE with _ | surf <;>
      simp [setMode, getCanvas, getSurface, hc, hS]

def C2surface : Surface := Surface.new 0 300 150

def C2state : DState :=
  { initState with canvas := some newCanvas, canvasCreated := 1,
                   SURFACE := some C2surface, nextId := 1 }

theorem setMode_spec_witness :
    (setMode (640, 480) none C2state).1 = C2surface ∧
    ((setMode (640, 480) none C2state).2).canvas.map Canvas.width = some 640 ∧
    ((setMode (640, 480) none C2state).2).canvas.map Canvas.height = some 480 := by
  have hspec := setMode_spec 640 480 none C2state
  exact ⟨hspec.2.2.2.2 C2surface rfl, hspec.1, hspec.2.1⟩

theorem setMode_creates_smooth (d : Nat × Nat) (f : Option Nat) (s : DState)
    (h : s.SURFACE = none) :
    ((setMode d f s).1).smooth = (f != some DISABLE_SMOOTHING) := by
  rcases hc : s.canvas with _ | c <;>
    simp [setMode, getCanvas, getSurface, Surface.new, Surface.smoothOn,
          Surface.noSmooth, h, hc] <;>
    split <;> simp_all

def C3run : Surface :=
  (getSurface ((setMode (100, 100) (some DISABLE_SMOOTHING)
      ((setMode (100, 100) none initState).2)).2)).1

/-- C3 counterexample: after the Surface has been created by a first
`setMode([100,100])` call (smoothing enabled), running
`setMode([100,100], DISABLE_SMOOTHING)` and then `getSurface()` yields a
Surface whose smoothing capability is still enabled, refuting the claim
that the pair yields a surface with smoothing disabled regardless of
whether the Surface had already been created. -/
theorem setMode_smoothing_cached_cex : C3run.smooth = true := by decide

/-- C3 (amended): `setMode([w,h], DISABLE_SMOOTHING)` followed by
`getSurface()` yields a surface with smoothing disabled, and omitting the
flags argument yields smoothing enabled, provided the Surface has not yet
been created: the smoothing toggles are applied to the Surface only at
its creation inside `getSurface`. If the Surface already exists, the
same instance is returned with its smoothing capability unchanged. -/
theorem setMode_smoothing_amended (w h : Nat) (flags : Option Nat) (s : DState) :
    (s.SURFACE = none →
      ((getSurface ((setMode (w, h) (some DISABLE_SMOOTHING) s).2)).1).smooth
          = false ∧
      ((getSurface ((setMode (w, h) none s).2)).1).smooth = true) ∧
    (∀ surf, s.SURFACE = some surf →
      (getSurface ((setMode (w, h) flags s).2)).1 = surf) := by
  constructor
  · intro hnone
    constructor
    · rw [getSurface_of_some _ _ (setMode_cached _ _ s)]
      simpa using setMode_creates_smooth (w, h) (some DISABLE_SMOOTHING) s hnone
    · rw [getSurface_of_some _ _ (setMode_cached _ _ s)]
      simpa using setMode_creates_smooth (w, h) none s hnone
  · intro surf hs
    rw [getSurface_of_some _ _ (setMode_cached _ _ s)]
    exact (setMode_of_some _ _ s surf hs).1

theorem setMode_smoothing_amended_witness :
    ((getSurface ((setMode (64, 48) (some DISABLE_SMOOTHING) initState).2)).1).smooth
      = false :=
  ((setMode_smoothing_amended 64 48 none initState).1 rfl).1

/-- C5: when the wrapper element exposes neither the unprefixed nor any
vendor specific fullscreen request method, the toggle click action
`enableFullScreen` returns `false` and leaves the whole state unchanged
(in particular the display flags, the wrapper and the platform fullscreen
state); no exception is raised (the embedding is total). -/
theorem enableFullScreen_no_api (s : DState) (w : Wrapper)
    (hw : s.wrapper = some w)
    (h1 : w.requestFullScreen = false)
    (h2 : w.mozRequestFullScreen = false)
    (h3 : w.webkitRequestFullScreen = false) :
    enableFullScreen s = (false, s) := by
  obtain ⟨ta, rf, mrf, wrf, rpl, mrpl, wrpl⟩ := w
  dsimp only at h1 h2 h3
  subst h1; subst h2; subst h3
  simp only [enableFullScreen, getFullScreenWrapper_of_some s _ hw]
  simp only [Bool.false_or, Bool.or_self, Bool.false_eq_true, if_false]
  rw [← hw]

def C5wrapper : Wrapper :=
  { textAlign := none, requestFullScreen := false, mozRequestFullScreen := false,
    webkitRequestFullScreen := false, requestPointerLock := false,
    mozRequestPointerLock := false, webkitRequestPointerLock := false }

def C5state : DState :=
  { initState with wrapper := some C5wrapper, wrapperCreated := 1,
                   platRequestFullScreen := false,
                   platMozRequestFullScreen := false,
                   platWebkitRequestFullScreen := false }

theorem enableFullScreen_no_api_witness :
    enableFullScreen C5state = (false, C5state) :=
  enableFullScreen_no_api C5state C5wrapper rfl rfl rfl rfl

/-- C4: an enter-exit round trip of the fullscreen change handler preserves
the wrapper text alignment. When the handler runs while the platform
reports fullscreen it saves the current wrapper `style.textAlign`, sets
it to "center", and requests pointer lock best-effort (issuing the
platform request exactly when some pointer lock method exists); when it
subsequently runs while the platform reports not-fullscreen it writes the
saved alignment back, so the wrapper alignment equals the original. -/
theorem fullscreen_roundtrip (s t : DState) (w u : Wrapper)
    (hfs : isFullScreen s = true) (hw : s.wrapper = some w)
    (hnfs : isFullScreen t = false) (hu : t.wrapper = some u)
    (hold : t.oldWrapperTextAlign = (fullScreenChange s).oldWrapperTextAlign) :
    (fullScreenChange s).oldWrapperTextAlign = w.textAlign ∧
    ((fullScreenChange s).wrapper).map Wrapper.textAlign = some (some "center") ∧
    (fullScreenChange s).plRequests =
      (if w.requestPointerLock || w.mozRequestPointerLock
          || w.webkitRequestPointerLock
       then s.plRequests + 1 else s.plRequests) ∧
    ((fullScreenChange t).wrapper).map Wrapper.textAlign = some w.textAlign := by
  by_cases hb : (w.requestPointerLock || w.mozRequestPointerLock
      || w.webkitRequestPointerLock) = true <;>
    simp_all [fullScreenChange, enablePointerLock, getFullScreenWrapper, hfs]

def C4wrapper : Wrapper :=
  { textAlign := some "left", requestFullScreen := true,
    mozRequestFullScreen := false, webkitRequestFullScreen := false,
    requestPointerLock := true, mozRequestPointerLock := false,
    webkitRequestPointerLock := false }

def C4enterState : DState :=
  { initState with wrapper := some C4wrapper, wrapperCreated := 1,
                   fullScreenElement := true }

def C4exitState : DState :=
  { fullScreenChange C4enterState with fullScreenElement := false }

theorem fullscreen_roundtrip_witness :
    ((fullScreenChange C4exitState).wrapper).map Wrapper.textAlign
      = some (some "left") := by
  have hrt := fullscreen_roundtrip C4enterState C4exitState C4wrapper
    { C4wrapper with textAlign := some "center" }
    (by decide) rfl (by decide) (by decide) (by decide)
  simpa using hrt.2.2.2

/-- C10: when a fullscreen change notification is handled while the
platform reports not-fullscreen and no entered-fullscreen notification
was ever handled before (so `oldWrapperTextAlign` still holds its initial
null value), the handler overwrites the wrapper `style.textAlign` with
that null value instead of leaving it unchanged. -/
theorem fullScreenChange_null_overwrite (s : DState) (w : Wrapper)
    (hnfs : isFullScreen s = false) (hold : s.oldWrapperTextAlign = none)
    (hw : s.wrapper = some w) :
    ((fullScreenChange s).wrapper).map Wrapper.textAlign = some none ∧
    (w.textAlign ≠ none →
      ((fullScreenChange s).wrapper).map Wrapper.textAlign ≠ some w.textAlign) := by
  have h1 : ((fullScreenChange s).wrapper).map Wrapper.textAlign = some none := by
    simp [fullScreenChange, hnfs, getFullScreenWrapper_of_some s w hw, hold]
  refine ⟨h1, fun hne => ?_⟩
  rw [h1]
  intro hcontra
  exact hne (Option.some.inj hcontra).symm

def C10wrapper : Wrapper :=
  { textAlign := some "left", requestFullScreen := true,
    mozRequestFullScreen := false, webkitRequestFullScreen := false,
    requestPointerLock := true, mozRequestPointerLock := false,
    webkitRequestPointerLock := false }

def C10state : DState :=
  { initState with wrapper := some C10wrapper, wrapperCreated := 1 }

theorem fullScreenChange_null_overwrite_witness :
    ((fullScreenChange C10state).wrapper).map Wrapper.textAlign = some none ∧
    C10state.wrapper.map Wrapper.textAlign = some (some "left") :=
  ⟨(fullScreenChange_null_overwrite C10state C10wrapper (by decide) rfl rfl).1, rfl⟩

/-- Exactly one canvas, one wrapper and one toggle element were ever
created, and each currently exists. -/
def elementsOnce (s : DState) : Bool :=
  s.canvasCreated == 1 && s.wrapperCreated == 1 && s.toggleCreated == 1 &&
  s.canvas.isSome && s.wrapper.isSome && s.toggle

theorem init_stable (s : DState) (hc : s.canvas.isSome = true)
    (hw : s.wrapper.isSome = true) (ht : s.toggle = true) :
    (init s).canvasCreated = s.canvasCreated ∧
    (init s).wrapperCreated = s.wrapperCreated ∧
    (init s).toggleCreated = s.toggleCreated ∧
    (init s).canvas.isSome = true ∧
    (init s).wrapper.isSome = true ∧
    (init s).toggle = true := by
  rcases hc2 : s.canvas with _ | c
  · rw [hc2] at hc; simp at hc
  rcases hw2 : s.wrapper with _ | w
  · rw [hw2] at hw; simp at hw
  simp only [init, getFullScreenWrapper, getFullScreenToggle, getCanvas,
    hc2, hw2, ht, if_true]
  split <;> simp

theorem elementsOnce_init (s : DState) (h : elementsOnce s = true) :
    elementsOnce (init s) = true := by
  simp only [elementsOnce, Bool.and_eq_true, beq_iff_eq] at h ⊢
  obtain ⟨⟨⟨⟨⟨h1, h2⟩, h3⟩, h4⟩, h5⟩, h6⟩ := h
  obtain ⟨g1, g2, g3, g4, g5, g6⟩ := init_stable s h4 h5 h6
  exact ⟨⟨⟨⟨⟨g1.trans h1, g2.trans h2⟩, g3.trans h3⟩, g4⟩, g5⟩, g6⟩

theorem elementsOnce_iterate (m : Nat) :
    elementsOnce (Nat.iterate init m (init initState)) = true := by
  induction m with
  | zero => decide
  | succ k ih =>
      rw [Function.iterate_succ_apply']
      exact elementsOnce_init _ ih

/-- C6: `init()` is idempotent with respect to element creation: starting
from the fresh document, after any `n >= 1` calls to `init` exactly one
canvas, one wrapper and one fullscreen toggle were ever created, and each
exists (each is looked up by its fixed id and created only when absent,
never duplicated). -/
theorem init_element_counts (n : Nat) (hn : 1 ≤ n) :
    elementsOnce (Nat.iterate init n initState) = true := by
  obtain ⟨m, rfl⟩ : ∃ m, n = m + 1 := ⟨n - 1, (Nat.succ_pred_eq_of_pos hn).symm⟩
  rw [Function.iterate_succ_apply]
  exact elementsOnce_iterate m

theorem init_element_counts_witness :
    1 ≤ 3 ∧ elementsOnce (Nat.iterate init 3 initState) = true :=
  ⟨by decide, init_element_counts 3 (by decide)⟩

def C7state : DState :=
  { initState with canvas := some newCanvas, canvasCreated := 1,
                   activeElement := ElemRef.otherEl 0 }

/-- C7 counterexample: with the canvas present but focus on another
element, `_hasFocus` moves input focus to the canvas (via the `focus()`
call inside `getCanvas`), refuting the claim that it does not itself
change which element holds focus. -/
theorem hasFocus_not_pure_cex :
    ¬ ((_hasFocus C7state).2.activeElement = C7state.activeElement) := by
  decide

/-- C7 (amended): `_hasFocus` returns whether the rendering target held
input focus at the moment of the call (`document.activeElement` is read
before the side effects), but it is not a pure query: it always leaves
input focus on the canvas, because it fetches the canvas through
`getCanvas`, which calls `focus()`. -/
theorem hasFocus_amended (s : DState) :
    (_hasFocus s).1 = (s.activeElement == ElemRef.canvasEl) ∧
    (_hasFocus s).2.activeElement = ElemRef.canvasEl := by
  exact ⟨rfl, getCanvas_active s⟩

/-- C8: `setCaption(title, icon)` sets the document title to `title` and
changes nothing else of the state; the icon argument, of arbitrary type,
has no effect. -/
theorem setCaption_spec {α : Type} (title : String) (icon : α) (s : DState) :
    setCaption title icon s = { s with title := title } := rfl

theorem init_active (s : DState) : (init s).activeElement = ElemRef.canvasEl := by
  simp only [init]
  split <;> simp [getCanvas_active]

theorem setMode_active (d : Nat × Nat) (f : Option Nat) (s : DState) :
    ((setMode d f s).2).activeElement = ElemRef.canvasEl := by
  rcases hc : s.canvas with _ | c <;> rcases hS : s.SURFACE with _ | surf <;>
    simp [setMode, getCanvas, getSurface, hc, hS]

def C9surface : Surface := Surface.new 0 300 150

def C9state : DState :=
  { initState with canvas := some newCanvas, canvasCreated := 1,
                   SURFACE := some C9surface, nextId := 1,
                   activeElement := ElemRef.otherEl 0 }

/-- C9 counterexample: once the Surface is cached, `getSurface` does not go
through `getCanvas` at all: called with focus on another element it
leaves the active element unchanged and not equal to the canvas, refuting
the claim that every listed operation, including `getSurface`, moves
input focus to the canvas as a side effect. -/
theorem getSurface_no_focus_cex :
    (getSurface C9state).2.activeElement = C9state.activeElement ∧
    C9state.activeElement ≠ ElemRef.canvasEl := by
  decide

/-- C9 (amended): `setMode`, `init`, `_getCanvasOffset` and `_hasFocus` go
through `getCanvas` on every call, and `getCanvas` on every call sets the
canvas tabindex attribute and focuses it, so each of those operations
moves input focus to the canvas; `getSurface`, however, goes through
`getCanvas` only on the call that creates the Surface — when the Surface
is already cached it leaves the state (and hence focus) untouched. -/
theorem focus_side_effects_amended (s : DState) (d : Nat × Nat)
    (f : Option Nat) :
    ((getCanvas s).2.activeElement = ElemRef.canvasEl ∧
     (getCanvas s).2.canvas.map Canvas.tabindex = some (some 1)) ∧
    ((setMode d f s).2).activeElement = ElemRef.canvasEl ∧
    (init s).activeElement = ElemRef.canvasEl ∧
    ((_getCanvasOffset s).2).activeElement = ElemRef.canvasEl ∧
    ((_hasFocus s).2).activeElement = ElemRef.canvasEl ∧
    (s.SURFACE = none → (getSurface s).2.activeElement = ElemRef.canvasEl) ∧
    (∀ surf, s.SURFACE = some surf → (getSurface s).2 = s) := by
  refine ⟨⟨getCanvas_active s, getCanvas_tabindex s⟩, setMode_active d f s,
    init_active s, getCanvas_active s, getCanvas_active s, fun hnone => ?_,
    fun surf hs => congrArg Prod.snd (getSurface_of_some s surf hs)⟩
  simp [getSurface, hnone, getCanvas_active]

theorem focus_side_effects_amended_witness :
    (getSurface initState).2.activeElement = ElemRef.canvasEl ∧
    (getSurface C9state).2 = C9state := by
  refine ⟨(focus_side_effects_amended initState (0, 0) none).2.2.2.2.2.1 rfl,
    (focus_side_effects_amended C9state (0, 0) none).2.2.2.2.2.2 C9surface rfl⟩

end GamejsDisplay
